import Mathlib

/-!
Shallow embedding of the clouddns dynamic-DNS client (src/main.go) and
verification of its specification claims.

Modelling conventions:
* Strings are Lean `String` (a list of Unicode scalar values), matching Go
  `for _, r := range s` rune iteration over well-formed input.
* Filesystem and network effects are made explicit: the cache directory is a
  function from file path to `FileState`, and each network call's outcome is
  an oracle parameter (`TransportResult`).
* JSON marshalling/unmarshalling is abstracted as oracle functions, since the
  claims do not depend on JSON syntax.
-/

namespace Clouddns

/-- A DNS record to update, as in the Go struct DNSRecord (src/main.go). -/
structure DNSRecord where
  name : String
  apiToken : String
  zoneID : String
  recordID : String
deriving DecidableEq, Repr

/-- Character-retention test of sanitizeString: latin alphanumerics and hyphens
are kept, everything else is replaced. Mirrors the condition of the `if` in
src/main.go lines 74-77. -/
def isKept (r : Char) : Bool :=
  decide (('a' ≤ r ∧ r ≤ 'z') ∨ ('A' ≤ r ∧ r ≤ 'Z') ∨ ('0' ≤ r ∧ r ≤ '9') ∨ r = '-')

/-- The loop of sanitizeString: the `Bool` argument is the Go local
`lastWasUnderscore`; kept runes are emitted and reset the flag, other runes
emit a single underscore unless the flag is already set. -/
def sanitizeAux : Bool → List Char → List Char
  | _, [] => []
  | last, c :: cs =>
    if isKept c then c :: sanitizeAux false cs
    else if last then sanitizeAux true cs
    else '_' :: sanitizeAux true cs

/-- sanitizeString keeps latin alphanumerics and hyphens, and replaces every
other character with an underscore, collapsing runs (src/main.go lines 67-92). -/
def sanitizeString (input : String) : String :=
  String.mk (sanitizeAux false input.data)

/-- generateCacheFilename (src/main.go lines 94-98). -/
def generateCacheFilename (record : DNSRecord) (recordType : String) : String :=
  let safeName := sanitizeString record.name
  let safeKey := recordType ++ "_" ++ safeName ++ "_" ++ record.recordID
  "cached_ip_" ++ safeKey ++ ".txt"

/-- A list of characters contains no two consecutive underscores. -/
def noDoubleUnderscore : List Char → Bool
  | c1 :: c2 :: cs => (!(c1 = '_' && c2 = '_')) && noDoubleUnderscore (c2 :: cs)
  | _ => true

/-- Go unicode.IsSpace / strings.TrimSpace whitespace set (the White_Space
property code points). -/
def goIsSpace (c : Char) : Bool :=
  decide ((9 ≤ c.toNat ∧ c.toNat ≤ 13) ∨ c.toNat = 32 ∨ c.toNat = 0x85 ∨
    c.toNat = 0xA0 ∨ c.toNat = 0x1680 ∨ (0x2000 ≤ c.toNat ∧ c.toNat ≤ 0x200A) ∨
    c.toNat = 0x2028 ∨ c.toNat = 0x2029 ∨ c.toNat = 0x202F ∨ c.toNat = 0x205F ∨
    c.toNat = 0x3000)

/-- Go strings.TrimSpace: drop leading and trailing whitespace runes. -/
def trimSpace (s : String) : String :=
  String.mk (((s.data.dropWhile goIsSpace).reverse.dropWhile goIsSpace).reverse)

/-- State of one file in the cache directory: absent, readable content, or an
I/O error other than non-existence on read. -/
inductive FileState where
  | absent
  | content (s : String)
  | ioError
deriving DecidableEq, Repr

/-- The cache directory, as a map from file path to file state. -/
def CacheFS := String → FileState

/-- Outcome of one outbound HTTP exchange: a transport-level failure (request
error or body-read error), or a response with status code and body. -/
inductive TransportResult where
  | transportError
  | response (status : Nat) (body : String)
deriving DecidableEq, Repr

/-- Go filepath.Join for the one shape used here (non-empty base joined with a
relative file name). -/
def filepathJoin (basePath fileName : String) : String :=
  basePath ++ "/" ++ fileName

/-- readCachedIP (src/main.go lines 165-182): empty base path and missing file
both yield the empty string without error; other read failures are errors; file
content is whitespace-trimmed. -/
def readCachedIP (basePath fileName : String) (fs : CacheFS) :
    Except String String :=
  if basePath = "" then .ok ""
  else
    match fs (filepathJoin basePath fileName) with
    | .absent => .ok ""
    | .content data => .ok (trimSpace data)
    | .ioError => .error "failed to read cache file"

/-- writeCachedIP (src/main.go lines 184-197): the `writeOk` oracle stands for
the outcome of os.WriteFile. On success the file at the joined path holds
exactly the content written. -/
def writeCachedIP (basePath fileName content : String) (writeOk : Bool)
    (fs : CacheFS) : Except String CacheFS :=
  if basePath = "" then .error "cannot write cache file, no base path provided"
  else if writeOk then
    .ok (fun p =>
      if p = filepathJoin basePath fileName then .content content else fs p)
  else .error "failed to write cache file"

/-- An error in the Cloudflare API response (src/main.go CloudflareError). -/
structure CloudflareError where
  code : Int
  message : String
deriving DecidableEq, Repr

/-- The Cloudflare API response structure (src/main.go CloudflareResponse). -/
structure CloudflareResponse where
  success : Bool
  errors : List CloudflareError
deriving DecidableEq, Repr

/-- The error returned by updateCloudflareRecord: transport failure, a
structured provider error taken from the parsed response, or the raw status
and body. -/
inductive UpdateError where
  | transport
  | structured (message : String) (code : Int)
  | raw (status : Nat) (body : String)
deriving DecidableEq, Repr

/-- updateCloudflareRecord (src/main.go lines 120-163) modulo request
construction: `resp` is the outcome of client.Do plus body read, and `parse`
abstracts json.Unmarshal into CloudflareResponse (`none` = unmarshal error).
A status of 400 or more is an error, reported structurally when the body
parses with a non-empty error list, otherwise as raw status and body; any
other status is success. -/
def updateCloudflareRecord (resp : TransportResult)
    (parse : String → Option CloudflareResponse) : Except UpdateError Unit :=
  match resp with
  | .transportError => .error .transport
  | .response status body =>
    if status ≥ 400 then
      match parse body with
      | some cfResp =>
        match cfResp.errors with
        | e :: _ => .error (.structured e.message e.code)
        | [] => .error (.raw status body)
      | none => .error (.raw status body)
    else .ok ()

/-- getCurrentIP (src/main.go lines 199-216): transport failure or a
non-200 status is an error; otherwise the whitespace-trimmed body. -/
def getCurrentIP (resp : TransportResult) : Except String String :=
  match resp with
  | .transportError => .error "failed to request IP"
  | .response status body =>
    if status ≠ 200 then .error "IP service returned status code"
    else .ok (trimSpace body)

/-- The cached address syncRecord compares against: the readCachedIP result,
with a read error logged and treated as the empty string (src/main.go
lines 229-236). -/
def readCachedIPOrEmpty (basePath fileName : String) (fs : CacheFS) : String :=
  match readCachedIP basePath fileName fs with
  | .ok s => s
  | .error _ => ""

/-- Modelled from the spec: the Notifier (spec section 4.4) lives in the
repository's second main-file variant, which is not under src/. `broadcast`
attempts delivery to every configured endpoint (each retried independently,
best-effort), so the list of endpoints with at least one delivery attempt is
exactly the configured list. -/
def broadcastEndpoints (webhooks : List String) : List String :=
  webhooks

/-- The control-flow outcome of one record task (spec section 3,
Sync Outcome). -/
inductive SyncOutcome where
  | skipped
  | updated
  | updateFailed
deriving DecidableEq, Repr

/-- Instrumented result of one syncRecord task: final cache directory state,
whether the provider update was called and succeeded, whether the cache file
was written, and which notification endpoints were attempted. -/
structure SyncResult where
  cache : CacheFS
  updateCalled : Bool
  updateSucceeded : Bool
  wroteCache : Bool
  notified : List String
  outcome : SyncOutcome

/-- syncRecord (src/main.go lines 220-292), with the notification step of the
second main-file variant modelled from the spec (section 4.5): on a cached-hit
skip nothing happens; otherwise the provider update runs, and only on its
success is the cache written (when a cache path is set; a write failure is
logged and ignored) and the webhook broadcast attempted. -/
def syncRecord (record : DNSRecord) (recordType baseCachePath currentIP : String)
    (webhooks : List String) (fs : CacheFS) (updResp : TransportResult)
    (parse : String → Option CloudflareResponse) (writeOk : Bool) : SyncResult :=
  let cacheFileName := generateCacheFilename record recordType
  let cachedIP := readCachedIPOrEmpty baseCachePath cacheFileName fs
  if cachedIP = currentIP then
    ⟨fs, false, false, false, [], .skipped⟩
  else
    match updateCloudflareRecord updResp parse with
    | .error _ => ⟨fs, true, false, false, [], .updateFailed⟩
    | .ok _ =>
      if baseCachePath ≠ "" then
        match writeCachedIP baseCachePath cacheFileName currentIP writeOk fs with
        | .ok fs1 =>
          ⟨fs1, true, true, true, broadcastEndpoints webhooks, .updated⟩
        | .error _ =>
          ⟨fs, true, true, false, broadcastEndpoints webhooks, .updated⟩
      else
        ⟨fs, true, true, false, broadcastEndpoints webhooks, .updated⟩

/-- Per-record oracles for one run: the provider response for this record's
update call, the filesystem outcome of its cache write, and its configured
webhook endpoints (the latter modelled from the spec, section 3). -/
structure RecordOracle where
  updResp : TransportResult
  writeOk : Bool
  webhooks : List String

/-- Result of one address-family group: final cache state and the per-record
results, in configuration order; empty results when address resolution
failed and no record task was spawned. -/
structure GroupResult where
  cache : CacheFS
  results : List SyncResult

/-- The per-record loop of syncRecordsToIPAddress (src/main.go lines 323-340),
sequentialised: record tasks of one run touch distinct cache files, so the
concurrent fan-out is equivalent to processing records in order, threading the
cache state. -/
def syncList (records : List (DNSRecord × RecordOracle))
    (recordType baseCachePath currentIP : String)
    (parse : String → Option CloudflareResponse) (fs : CacheFS) :
    CacheFS × List SyncResult :=
  match records with
  | [] => (fs, [])
  | (r, o) :: rest =>
    let res := syncRecord r recordType baseCachePath currentIP o.webhooks fs
      o.updResp parse o.writeOk
    let tail := syncList rest recordType baseCachePath currentIP parse res.cache
    (tail.1, res :: tail.2)

/-- syncRecordsToIPAddress (src/main.go lines 316-341): resolve the current
address once for the family; on failure log and return with no record task
spawned, otherwise run every record task against the shared address. -/
def syncRecordsToIPAddress (records : List (DNSRecord × RecordOracle))
    (recordType baseCachePath : String) (ipResp : TransportResult)
    (parse : String → Option CloudflareResponse) (fs : CacheFS) : GroupResult :=
  match getCurrentIP ipResp with
  | .error _ => ⟨fs, []⟩
  | .ok currentIP =>
    let out := syncList records recordType baseCachePath currentIP parse fs
    ⟨out.1, out.2⟩

/-- DNSConfiguration (src/main.go lines 31-34). -/
structure DNSConfiguration where
  a : List DNSRecord
  aaaa : List DNSRecord
deriving DecidableEq, Repr

/-- loadDNSConfiguration (src/main.go lines 36-59): the environment variable,
the file read and the JSON parse are explicit inputs (`configRead` is the
os.ReadFile outcome and `configParse` abstracts json.Unmarshal, `none` being a
parse error); an unset path, a read failure, a parse failure, or two empty
record lists are errors. -/
def loadDNSConfiguration (configPath : String) (configRead : Except Unit String)
    (configParse : String → Option DNSConfiguration) :
    Except String DNSConfiguration :=
  if configPath = "" then
    .error "DDNS_CONFIG_PATH environment variable not set"
  else
    match configRead with
    | .error _ => .error "failed to read config file"
    | .ok contents =>
      match configParse contents with
      | none => .error "failed to parse config file"
      | some configuration =>
        if configuration.a.length = 0 ∧ configuration.aaaa.length = 0 then
          .error "no DNS records found in config file"
        else .ok configuration

/-- All inputs of one process run: environment variables, configuration file
outcomes, initial cache directory state, the two resolver responses, and the
per-record oracles for each family (paired positionally with the parsed
record lists). -/
structure RunEnv where
  configPath : String
  cachePath : String
  configRead : Except Unit String
  configParse : String → Option DNSConfiguration
  fs : CacheFS
  aResp : TransportResult
  aaaaResp : TransportResult
  aOracles : List RecordOracle
  aaaaOracles : List RecordOracle
  parse : String → Option CloudflareResponse

/-- Result of a completed run: final cache state and per-record results of
each family group. -/
structure RunResult where
  cache : CacheFS
  aResults : List SyncResult
  aaaaResults : List SyncResult

/-- Pair each record with its oracle; a record beyond the oracle list gets a
default oracle (transport failure, failing write, no webhooks). -/
def zipOracles (records : List DNSRecord) (oracles : List RecordOracle) :
    List (DNSRecord × RecordOracle) :=
  match records, oracles with
  | [], _ => []
  | r :: rs, [] => (r, ⟨.transportError, false, []⟩) :: zipOracles rs []
  | r :: rs, o :: os => (r, o) :: zipOracles rs os

/-- run (src/main.go lines 343-397): load the configuration (failure aborts
the run with an error), then process each non-empty family group; the groups
run concurrently on disjoint cache files (cross-family filenames never
collide), so they are sequentialised A first. Group and record failures are
logged, never returned: a loaded configuration always yields .ok. -/
def run (env : RunEnv) : Except String RunResult :=
  match loadDNSConfiguration env.configPath env.configRead env.configParse with
  | .error e => .error ("failed to load configuration: " ++ e)
  | .ok configuration =>
    let aRes : GroupResult :=
      if configuration.a.length > 0 then
        syncRecordsToIPAddress (zipOracles configuration.a env.aOracles) "A"
          env.cachePath env.aResp env.parse env.fs
      else ⟨env.fs, []⟩
    let aaaaRes : GroupResult :=
      if configuration.aaaa.length > 0 then
        syncRecordsToIPAddress (zipOracles configuration.aaaa env.aaaaOracles)
          "AAAA" env.cachePath env.aaaaResp env.parse aRes.cache
      else ⟨aRes.cache, []⟩
    .ok ⟨aaaaRes.cache, aRes.results, aaaaRes.results⟩

/-- main (src/main.go lines 399-406): exit code 1 when run returns an error,
0 otherwise. -/
def mainExitCode (env : RunEnv) : Nat :=
  match run env with
  | .error _ => 1
  | .ok _ => 0

/-- Concrete fixture: an empty cache directory. -/
def fsEmpty : CacheFS := fun _ => FileState.absent

/-- Concrete fixture: a record. -/
def recA : DNSRecord := ⟨"n", "t", "z", "i"⟩

/-- Concrete fixture: a JSON parse oracle that always fails. -/
def parseNone : String → Option CloudflareResponse := fun _ => none

/-- Concrete fixture: a configuration parse oracle yielding one A and one
AAAA record. -/
def parseCfg : String → Option DNSConfiguration :=
  fun _ => some ⟨[recA], [recA]⟩

/-- Concrete fixture: a run environment whose AAAA resolver call fails at the
transport level while the A resolver answers. -/
def envC7 : RunEnv :=
  ⟨"c", "", Except.ok "x", parseCfg, fsEmpty,
    TransportResult.response 200 "1.2.3.4", TransportResult.transportError,
    [⟨TransportResult.response 200 "", true, []⟩], [], parseNone⟩

/-- Concrete fixture: the run result of envC7. -/
def rC7 : RunResult :=
  match run envC7 with
  | .ok r => r
  | .error _ => ⟨fsEmpty, [], []⟩

/-- Concrete fixture: envC7 with a failing per-record update oracle for the A
family, identical configuration inputs. -/
def envC8 : RunEnv :=
  ⟨"c", "", Except.ok "x", parseCfg, fsEmpty,
    TransportResult.response 200 "1.2.3.4", TransportResult.transportError,
    [⟨TransportResult.transportError, false, []⟩], [], parseNone⟩

/-- Concrete fixture: a run environment whose A resolver call fails at the
transport level while the AAAA resolver answers. -/
def envC7b : RunEnv :=
  ⟨"c", "", Except.ok "x", parseCfg, fsEmpty,
    TransportResult.transportError, TransportResult.response 200 "aa11", [],
    [⟨TransportResult.response 200 "", true, []⟩], parseNone⟩

/-- Concrete fixture: the run result of envC7b. -/
def rC7b : RunResult :=
  match run envC7b with
  | .ok r => r
  | .error _ => ⟨fsEmpty, [], []⟩

example : sanitizeString "sub.example.com" = "sub_example_com" := by decide
example : sanitizeString "a..b--c" = "a_b--c" := by decide
example : generateCacheFilename ⟨"ex.com", "t", "z", "id9"⟩ "A" =
    "cached_ip_A_ex_com_id9.txt" := by decide

lemma isKept_underscore : isKept '_' = false := by decide

lemma kept_ne_underscore {c : Char} (h : isKept c = true) : c ≠ '_' := by
  intro he
  subst he
  exact absurd h (by decide)

/-- Every character emitted by the sanitizer loop is either a kept character
or an underscore. -/
lemma sanitizeAux_mem {cs : List Char} :
    ∀ last c, c ∈ sanitizeAux last cs → isKept c = true ∨ c = '_' := by
  induction cs with
  | nil => intro last c hc; simp [sanitizeAux] at hc
  | cons d ds ih =>
    intro last c hc
    by_cases hk : isKept d = true
    · simp [sanitizeAux, hk] at hc
      rcases hc with hc | hc
      · exact Or.inl (hc ▸ hk)
      · exact ih false c hc
    · cases last with
      | true =>
        simp [sanitizeAux, hk] at hc
        exact ih true c hc
      | false =>
        simp [sanitizeAux, hk] at hc
        rcases hc with hc | hc
        · exact Or.inr hc
        · exact ih true c hc

/-- When the loop starts with the underscore flag set, the first character it
emits is a kept character, never an underscore. -/
lemma sanitizeAux_true_head {cs : List Char} :
    ∀ d ds, sanitizeAux true cs = d :: ds → isKept d = true := by
  induction cs with
  | nil => intro d ds h; simp [sanitizeAux] at h
  | cons c cs ih =>
    intro d ds h
    by_cases hk : isKept c = true
    · simp [sanitizeAux, hk] at h
      exact h.1 ▸ hk
    · simp [sanitizeAux, hk] at h
      exact ih d ds h

/-- The sanitizer loop never emits two consecutive underscores. -/
lemma sanitizeAux_noDouble (cs : List Char) :
    ∀ last, noDoubleUnderscore (sanitizeAux last cs) = true := by
  induction cs with
  | nil => intro last; simp [sanitizeAux, noDoubleUnderscore]
  | cons c cs ih =>
    intro last
    by_cases hk : isKept c = true
    · rw [show sanitizeAux last (c :: cs) = c :: sanitizeAux false cs by
        simp [sanitizeAux, hk]]
      cases hrest : sanitizeAux false cs with
      | nil => simp [noDoubleUnderscore]
      | cons d ds =>
        have hnd := ih false
        rw [hrest] at hnd
        simp [noDoubleUnderscore, hnd]
        exact Or.inl (kept_ne_underscore hk)
    · cases last with
      | true =>
        rw [show sanitizeAux true (c :: cs) = sanitizeAux true cs by
          simp [sanitizeAux, hk]]
        exact ih true
      | false =>
        rw [show sanitizeAux false (c :: cs) = '_' :: sanitizeAux true cs by
          simp [sanitizeAux, hk]]
        cases hrest : sanitizeAux true cs with
        | nil => simp [noDoubleUnderscore]
        | cons d ds =>
          have hnd := ih true
          rw [hrest] at hnd
          have hd := sanitizeAux_true_head d ds hrest
          simp [noDoubleUnderscore, hnd]
          exact kept_ne_underscore hd

/-- Re-running the sanitizer loop on its own output reproduces it. -/
lemma sanitizeAux_idem (cs : List Char) :
    (∀ b, sanitizeAux false (sanitizeAux b cs) = sanitizeAux b cs) ∧
    sanitizeAux true (sanitizeAux true cs) = sanitizeAux true cs := by
  induction cs with
  | nil => simp [sanitizeAux]
  | cons c cs ih =>
    constructor
    · intro b
      by_cases hk : isKept c = true
      · cases b with
        | true => simp [sanitizeAux, hk, ih.1]
        | false => simp [sanitizeAux, hk, ih.1]
      · cases b with
        | true => simp [sanitizeAux, hk, ih.1]
        | false => simp [sanitizeAux, hk, isKept_underscore, ih.2]
    · by_cases hk : isKept c = true
      · simp [sanitizeAux, hk, ih.1]
      · simp [sanitizeAux, hk, ih.2]

/-- C5: sanitizeString output contains only characters in [A-Za-z0-9-_] and
never two consecutive underscores. -/
theorem sanitizeString_total_safe (s : String) :
    (∀ c ∈ (sanitizeString s).data, isKept c = true ∨ c = '_') ∧
    noDoubleUnderscore (sanitizeString s).data = true := by
  constructor
  · intro c hc
    exact sanitizeAux_mem false c hc
  · exact sanitizeAux_noDouble s.data false

/-- Witness for C5 at a concrete input and output character. -/
theorem sanitizeString_total_safe_witness :
    (isKept 'x' = true ∨ 'x' = '_') ∧
    noDoubleUnderscore (sanitizeString "x..y").data = true :=
  ⟨(sanitizeString_total_safe "x..y").1 'x' (by decide),
   (sanitizeString_total_safe "x..y").2⟩

/-- C6: sanitizeString is idempotent. -/
theorem sanitizeString_idem (s : String) :
    sanitizeString (sanitizeString s) = sanitizeString s := by
  show String.mk (sanitizeAux false (sanitizeAux false s.data)) =
    String.mk (sanitizeAux false s.data)
  rw [(sanitizeAux_idem s.data).1 false]

/-- C4: records tagged with different address families always get different
cache filenames, whatever their names and identifiers. -/
theorem generateCacheFilename_crossFamily (r1 r2 : DNSRecord)
    (_h : r1.recordID = r2.recordID) :
    generateCacheFilename r1 "A" ≠ generateCacheFilename r2 "AAAA" := by
  intro he
  have hd := congrArg String.data he
  simp [generateCacheFilename, String.data_append] at hd

/-- Witness for C4 at a concrete pair of records sharing a record identifier. -/
theorem generateCacheFilename_crossFamily_witness :
    generateCacheFilename ⟨"AA.x", "t", "z", "id"⟩ "A" ≠
      generateCacheFilename ⟨"x", "t", "z", "id"⟩ "AAAA" :=
  generateCacheFilename_crossFamily ⟨"AA.x", "t", "z", "id"⟩ ⟨"x", "t", "z", "id"⟩ rfl

/-- C2: when the cached address equals the resolved current address,
syncRecord makes no provider update call, attempts no notification, and
leaves the cache directory unchanged (the task is skipped). -/
theorem syncRecord_idempotent (record : DNSRecord)
    (recordType baseCachePath currentIP : String) (webhooks : List String)
    (fs : CacheFS) (updResp : TransportResult)
    (parse : String → Option CloudflareResponse) (writeOk : Bool)
    (h : readCachedIPOrEmpty baseCachePath
      (generateCacheFilename record recordType) fs = currentIP) :
    let res := syncRecord record recordType baseCachePath currentIP webhooks fs
      updResp parse writeOk
    res.updateCalled = false ∧ res.notified = [] ∧ res.cache = fs ∧
      res.outcome = SyncOutcome.skipped := by
  simp [syncRecord, h]

/-- Witness for C2: a record whose (disabled-cache) cached address and current
address are both empty is skipped. -/
theorem syncRecord_idempotent_witness :
    let res := syncRecord recA "A" "" "" [] fsEmpty TransportResult.transportError
      parseNone true
    res.updateCalled = false ∧ res.notified = [] ∧ res.cache = fsEmpty ∧
      res.outcome = SyncOutcome.skipped :=
  syncRecord_idempotent recA "A" "" "" [] fsEmpty
    TransportResult.transportError parseNone true rfl

/-- C1 counterexample: with caching disabled (empty cache path), cache absent
and a cached address differing from the current one, the provider update
succeeds yet no cache write happens, so "the cache is written with the new
address if and only if the update call returned success" fails as stated. -/
theorem syncRecord_writeIffSuccess_counterexample :
    (syncRecord recA "A" "" "1.2.3.4" [] fsEmpty (TransportResult.response 200 "")
        parseNone true).updateSucceeded = true ∧
    ¬((syncRecord recA "A" "" "1.2.3.4" [] fsEmpty
        (TransportResult.response 200 "") parseNone true).wroteCache = true ↔
      (syncRecord recA "A" "" "1.2.3.4" [] fsEmpty
        (TransportResult.response 200 "") parseNone true).updateSucceeded = true) := by
  constructor
  · rfl
  · intro hiff
    have : (syncRecord recA "A" "" "1.2.3.4" [] fsEmpty
        (TransportResult.response 200 "") parseNone true).wroteCache = true :=
      hiff.mpr rfl
    exact absurd this (by decide)

/-- C1 amended: a cache write happens only after a successful provider update
and then stores exactly the new address; conversely, when the update succeeds,
caching is enabled and the filesystem write does not fail, the cache is
written; an unsuccessful (or skipped) update leaves the cache directory
unchanged. -/
theorem syncRecord_writeOnSuccess (record : DNSRecord)
    (recordType baseCachePath currentIP : String) (webhooks : List String)
    (fs : CacheFS) (updResp : TransportResult)
    (parse : String → Option CloudflareResponse) (writeOk : Bool) :
    let res := syncRecord record recordType baseCachePath currentIP webhooks fs
      updResp parse writeOk
    (res.wroteCache = true → res.updateSucceeded = true ∧
      res.cache (filepathJoin baseCachePath
        (generateCacheFilename record recordType)) =
        FileState.content currentIP) ∧
    (res.updateSucceeded = true ∧ baseCachePath ≠ "" ∧ writeOk = true →
      res.wroteCache = true) ∧
    (res.updateSucceeded = false → res.cache = fs ∧ res.wroteCache = false) := by
  by_cases hskip : readCachedIPOrEmpty baseCachePath
      (generateCacheFilename record recordType) fs = currentIP
  · simp [syncRecord, hskip]
  · cases hupd : updateCloudflareRecord updResp parse with
    | error e => simp [syncRecord, hskip, hupd]
    | ok u =>
      by_cases hbp : baseCachePath = ""
      · subst hbp
        simp [syncRecord, hskip, hupd]
      · by_cases hw : writeOk = true
        · simp [syncRecord, writeCachedIP, hskip, hupd, hbp, hw]
        · simp [syncRecord, writeCachedIP, hskip, hupd, hbp, hw]

/-- Witness for C1 amended: with caching enabled and a succeeding write, a
successful update writes the cache. -/
theorem syncRecord_writeOnSuccess_witness :
    (syncRecord recA "A" "cache" "1.2.3.4" [] fsEmpty
      (TransportResult.response 200 "") parseNone true).wroteCache = true :=
  (syncRecord_writeOnSuccess recA "A" "cache" "1.2.3.4" [] fsEmpty
    (TransportResult.response 200 "") parseNone true).2.1
    ⟨rfl, by decide, rfl⟩

/-- C3: the webhook broadcast to a Record's configured endpoints is attempted
exactly when the provider update for that Record succeeded, independently of
the cache-write outcome; a failed update yields zero webhook requests. -/
theorem syncRecord_notificationGating (record : DNSRecord)
    (recordType baseCachePath currentIP : String) (webhooks : List String)
    (fs : CacheFS) (updResp : TransportResult)
    (parse : String → Option CloudflareResponse) (writeOk1 writeOk2 : Bool) :
    let res := syncRecord record recordType baseCachePath currentIP webhooks fs
      updResp parse writeOk1
    (res.updateSucceeded = true → res.notified = webhooks) ∧
    (res.updateSucceeded = false → res.notified = []) ∧
    res.notified = (syncRecord record recordType baseCachePath currentIP
      webhooks fs updResp parse writeOk2).notified := by
  by_cases hskip : readCachedIPOrEmpty baseCachePath
      (generateCacheFilename record recordType) fs = currentIP
  · simp [syncRecord, hskip]
  · cases hupd : updateCloudflareRecord updResp parse with
    | error e => simp [syncRecord, hskip, hupd]
    | ok u =>
      by_cases hbp : baseCachePath = ""
      · subst hbp
        simp [syncRecord, broadcastEndpoints, hskip, hupd]
      · cases writeOk1 <;> cases writeOk2 <;>
          simp [syncRecord, writeCachedIP, broadcastEndpoints, hskip, hupd, hbp]

/-- Witness for C3: a record whose provider update fails at the transport
level notifies none of its configured endpoints. -/
theorem syncRecord_notificationGating_witness :
    (syncRecord recA "A" "" "1.2.3.4" ["hook"] fsEmpty
      TransportResult.transportError parseNone true).notified = [] :=
  (syncRecord_notificationGating recA "A" "" "1.2.3.4" ["hook"] fsEmpty
    TransportResult.transportError parseNone true true).2.1 rfl

/-- C9: once an HTTP response is received, updateCloudflareRecord succeeds
exactly when the status is at most 399; any status of 400 or more produces the
structured provider error when the body parses to a response with a non-empty
error list, and otherwise the raw status and body. -/
theorem updateCloudflareRecord_statusThreshold (status : Nat) (body : String)
    (parse : String → Option CloudflareResponse) :
    (updateCloudflareRecord (TransportResult.response status body) parse =
      Except.ok () ↔ status ≤ 399) ∧
    (400 ≤ status →
      updateCloudflareRecord (TransportResult.response status body) parse =
        Except.error (match parse body with
          | some cfResp =>
            match cfResp.errors with
            | e :: _ => UpdateError.structured e.message e.code
            | [] => UpdateError.raw status body
          | none => UpdateError.raw status body)) := by
  constructor
  · by_cases h4 : status ≥ 400
    · have h399 : ¬status ≤ 399 := by omega
      simp only [updateCloudflareRecord, if_pos h4]
      cases hp : parse body with
      | none => simp [h399]
      | some cfResp =>
        obtain ⟨suc, errs⟩ := cfResp
        cases errs with
        | nil => simp [h399]
        | cons e es => simp [h399]
    · have h399 : status ≤ 399 := by omega
      simp [updateCloudflareRecord, h4, h399]
  · intro h4
    simp only [updateCloudflareRecord, if_pos (show status ≥ 400 from h4)]
    cases hp : parse body with
    | none => rfl
    | some cfResp =>
      obtain ⟨suc, errs⟩ := cfResp
      cases errs with
      | nil => rfl
      | cons e es => rfl

/-- Witness for C9: a 500 response with an unparsable body yields the raw
error, and a 302 response is treated as success. -/
theorem updateCloudflareRecord_statusThreshold_witness :
    updateCloudflareRecord (TransportResult.response 500 "oops") parseNone =
      Except.error (UpdateError.raw 500 "oops") ∧
    updateCloudflareRecord (TransportResult.response 302 "moved") parseNone =
      Except.ok () :=
  ⟨(updateCloudflareRecord_statusThreshold 500 "oops" parseNone).2 (by omega),
   (updateCloudflareRecord_statusThreshold 302 "moved" parseNone).1.mpr (by omega)⟩

/-- A cache read that is disabled, hits a missing file, or fails with an I/O
error yields the empty cached address. -/
lemma readCachedIPOrEmpty_empty (basePath fileName : String) (fs : CacheFS)
    (h : basePath = "" ∨ fs (filepathJoin basePath fileName) = FileState.absent ∨
      fs (filepathJoin basePath fileName) = FileState.ioError) :
    readCachedIPOrEmpty basePath fileName fs = "" := by
  rcases h with h | h | h
  · subst h
    simp [readCachedIPOrEmpty, readCachedIP]
  · by_cases hbp : basePath = ""
    · subst hbp
      simp [readCachedIPOrEmpty, readCachedIP]
    · simp [readCachedIPOrEmpty, readCachedIP, hbp, h]
  · by_cases hbp : basePath = ""
    · subst hbp
      simp [readCachedIPOrEmpty, readCachedIP]
    · simp [readCachedIPOrEmpty, readCachedIP, hbp, h]

/-- C10: a whitespace-only discovery body trims to the empty current address,
and a record whose cache read yields the empty string (cache disabled, file
absent, or read failure) then compares equal and is skipped: no provider
update call, no cache change, outcome skipped rather than an error. -/
theorem emptyAddress_skip (body : String) (record : DNSRecord)
    (recordType baseCachePath : String) (webhooks : List String) (fs : CacheFS)
    (updResp : TransportResult) (parse : String → Option CloudflareResponse)
    (writeOk : Bool)
    (hbody : trimSpace body = "")
    (hcache : baseCachePath = "" ∨
      fs (filepathJoin baseCachePath (generateCacheFilename record recordType)) =
        FileState.absent ∨
      fs (filepathJoin baseCachePath (generateCacheFilename record recordType)) =
        FileState.ioError) :
    getCurrentIP (TransportResult.response 200 body) = Except.ok "" ∧
    (let res := syncRecord record recordType baseCachePath "" webhooks fs
        updResp parse writeOk
     res.updateCalled = false ∧ res.cache = fs ∧
       res.outcome = SyncOutcome.skipped) := by
  have hread := readCachedIPOrEmpty_empty baseCachePath
    (generateCacheFilename record recordType) fs hcache
  constructor
  · simp [getCurrentIP, hbody]
  · simp [syncRecord, hread]

/-- Witness for C10: a body of a space and a newline with caching disabled. -/
theorem emptyAddress_skip_witness :
    getCurrentIP (TransportResult.response 200 " \n") = Except.ok "" ∧
    (let res := syncRecord recA "A" "" "" [] fsEmpty
        TransportResult.transportError parseNone true
     res.updateCalled = false ∧ res.cache = fsEmpty ∧
       res.outcome = SyncOutcome.skipped) :=
  emptyAddress_skip " \n" recA "A" "" [] fsEmpty TransportResult.transportError
    parseNone true (by decide) (Or.inl rfl)

/-- A family group whose address resolution fails spawns no record task and
leaves the cache directory untouched. -/
lemma syncRecordsToIPAddress_resolveFail
    (records : List (DNSRecord × RecordOracle)) (recordType baseCachePath : String)
    (ipResp : TransportResult) (parse : String → Option CloudflareResponse)
    (fs : CacheFS) (e : String) (he : getCurrentIP ipResp = Except.error e) :
    syncRecordsToIPAddress records recordType baseCachePath ipResp parse fs =
      ⟨fs, []⟩ := by
  simp [syncRecordsToIPAddress, he]

/-- C7: when address resolution for one family fails, the run performs zero
record tasks for that family (so no provider update call and no cache write
for any of its records), and the other family is processed exactly as it
would be alone on the initial cache state; stated for either family failing. -/
theorem resolutionFailure_abortsFamily (env : RunEnv) (r : RunResult)
    (hrun : run env = Except.ok r) :
    (∀ e, getCurrentIP env.aaaaResp = Except.error e →
      r.aaaaResults = [] ∧
      ∃ configuration,
        loadDNSConfiguration env.configPath env.configRead env.configParse =
          Except.ok configuration ∧
        (let aRes := if configuration.a.length > 0 then
            syncRecordsToIPAddress (zipOracles configuration.a env.aOracles) "A"
              env.cachePath env.aResp env.parse env.fs
          else ⟨env.fs, []⟩
         r.cache = aRes.cache ∧ r.aResults = aRes.results)) ∧
    (∀ e, getCurrentIP env.aResp = Except.error e →
      r.aResults = [] ∧
      ∃ configuration,
        loadDNSConfiguration env.configPath env.configRead env.configParse =
          Except.ok configuration ∧
        (let aaaaRes := if configuration.aaaa.length > 0 then
            syncRecordsToIPAddress (zipOracles configuration.aaaa
              env.aaaaOracles) "AAAA" env.cachePath env.aaaaResp env.parse
              env.fs
          else ⟨env.fs, []⟩
         r.cache = aaaaRes.cache ∧ r.aaaaResults = aaaaRes.results)) := by
  cases hload : loadDNSConfiguration env.configPath env.configRead
      env.configParse with
  | error msg => simp [run, hload] at hrun
  | ok configuration =>
    constructor
    · intro e he
      have hgroup : ∀ (recs : List (DNSRecord × RecordOracle)) (fs0 : CacheFS),
          syncRecordsToIPAddress recs "AAAA" env.cachePath env.aaaaResp
            env.parse fs0 = ⟨fs0, []⟩ :=
        fun recs fs0 => syncRecordsToIPAddress_resolveFail recs "AAAA"
          env.cachePath env.aaaaResp env.parse fs0 e he
      simp only [run, hload, hgroup, ite_self] at hrun
      rw [Except.ok.injEq] at hrun
      subst hrun
      exact ⟨rfl, configuration, rfl, rfl, rfl⟩
    · intro e he
      have hgroup : ∀ (recs : List (DNSRecord × RecordOracle)) (fs0 : CacheFS),
          syncRecordsToIPAddress recs "A" env.cachePath env.aResp
            env.parse fs0 = ⟨fs0, []⟩ :=
        fun recs fs0 => syncRecordsToIPAddress_resolveFail recs "A"
          env.cachePath env.aResp env.parse fs0 e he
      simp only [run, hload, hgroup, ite_self] at hrun
      rw [Except.ok.injEq] at hrun
      subst hrun
      exact ⟨rfl, configuration, rfl, rfl, rfl⟩

/-- Witness for C7 at two concrete environments with one record per family:
one with a transport failure on the AAAA resolver, one with a transport
failure on the A resolver. -/
theorem resolutionFailure_abortsFamily_witness :
    (rC7.aaaaResults = [] ∧
     ∃ configuration,
       loadDNSConfiguration envC7.configPath envC7.configRead envC7.configParse =
         Except.ok configuration ∧
       (let aRes := if configuration.a.length > 0 then
           syncRecordsToIPAddress (zipOracles configuration.a envC7.aOracles)
             "A" envC7.cachePath envC7.aResp envC7.parse envC7.fs
         else ⟨envC7.fs, []⟩
        rC7.cache = aRes.cache ∧ rC7.aResults = aRes.results)) ∧
    (rC7b.aResults = [] ∧
     ∃ configuration,
       loadDNSConfiguration envC7b.configPath envC7b.configRead
         envC7b.configParse = Except.ok configuration ∧
       (let aaaaRes := if configuration.aaaa.length > 0 then
           syncRecordsToIPAddress (zipOracles configuration.aaaa
             envC7b.aaaaOracles) "AAAA" envC7b.cachePath envC7b.aaaaResp
             envC7b.parse envC7b.fs
         else ⟨envC7b.fs, []⟩
        rC7b.cache = aaaaRes.cache ∧ rC7b.aaaaResults = aaaaRes.results)) :=
  ⟨(resolutionFailure_abortsFamily envC7 rC7 rfl).1 "failed to request IP" rfl,
   (resolutionFailure_abortsFamily envC7b rC7b rfl).2 "failed to request IP" rfl⟩

/-- The exit code is 0 exactly when the configuration loads. -/
lemma mainExitCode_zero_iff (env : RunEnv) :
    mainExitCode env = 0 ↔ ∃ configuration,
      loadDNSConfiguration env.configPath env.configRead env.configParse =
        Except.ok configuration := by
  cases hload : loadDNSConfiguration env.configPath env.configRead
      env.configParse with
  | error msg => simp [mainExitCode, run, hload]
  | ok configuration => simp [mainExitCode, run, hload]

/-- The exit code is always 0 or 1. -/
lemma mainExitCode_cases (env : RunEnv) :
    mainExitCode env = 0 ∨ mainExitCode env = 1 := by
  unfold mainExitCode
  cases run env <;> simp

/-- Configuration loading fails exactly on: unset path, unreadable file,
unparsable file, or both record lists empty. -/
lemma load_fails_iff (configPath : String) (configRead : Except Unit String)
    (configParse : String → Option DNSConfiguration) :
    (¬∃ configuration, loadDNSConfiguration configPath configRead configParse =
      Except.ok configuration) ↔
    (configPath = "" ∨ configRead = Except.error () ∨
     (∃ s, configRead = Except.ok s ∧ configParse s = none) ∨
     (∃ s cfg, configRead = Except.ok s ∧ configParse s = some cfg ∧
       cfg.a.length = 0 ∧ cfg.aaaa.length = 0)) := by
  constructor
  · intro hne
    by_cases hcp : configPath = ""
    · exact Or.inl hcp
    · cases hcr : configRead with
      | error u =>
        cases u
        exact Or.inr (Or.inl rfl)
      | ok s =>
        cases hps : configParse s with
        | none => exact Or.inr (Or.inr (Or.inl ⟨s, rfl, hps⟩))
        | some cfg =>
          by_cases hemp : cfg.a.length = 0 ∧ cfg.aaaa.length = 0
          · exact Or.inr (Or.inr (Or.inr ⟨s, cfg, rfl, hps, hemp.1, hemp.2⟩))
          · refine absurd ⟨cfg, ?_⟩ hne
            simp only [loadDNSConfiguration, hcr, hps]
            rw [if_neg hcp, if_neg hemp]
  · rintro (hcp | hcr | ⟨s, hcr, hps⟩ | ⟨s, cfg, hcr, hps, ha, haa⟩) ⟨c, hc⟩
    · simp [loadDNSConfiguration, hcp] at hc
    · simp only [loadDNSConfiguration, hcr] at hc
      split at hc
      · exact Except.noConfusion hc
      · exact Except.noConfusion hc
    · simp only [loadDNSConfiguration, hcr, hps] at hc
      split at hc
      · exact Except.noConfusion hc
      · exact Except.noConfusion hc
    · simp only [loadDNSConfiguration, hcr, hps] at hc
      split at hc
      · exact Except.noConfusion hc
      · rw [if_pos ⟨ha, haa⟩] at hc
        exact Except.noConfusion hc

/-- C8: the process exit code is 0 or 1; it is 0 exactly when the
configuration loads, 1 exactly on one of the four load-failure causes (path
unset, unreadable, unparsable, both record lists empty); and it does not
depend on anything beyond the configuration inputs, so per-record and
per-family failures never change it. -/
theorem mainExitCode_spec (env1 env2 : RunEnv)
    (hc : env1.configPath = env2.configPath)
    (hr : env1.configRead = env2.configRead)
    (hp : env1.configParse = env2.configParse) :
    (mainExitCode env1 = 0 ∨ mainExitCode env1 = 1) ∧
    (mainExitCode env1 = 0 ↔ ∃ configuration,
      loadDNSConfiguration env1.configPath env1.configRead env1.configParse =
        Except.ok configuration) ∧
    (mainExitCode env1 = 1 ↔
      (env1.configPath = "" ∨ env1.configRead = Except.error () ∨
       (∃ s, env1.configRead = Except.ok s ∧ env1.configParse s = none) ∨
       (∃ s cfg, env1.configRead = Except.ok s ∧
         env1.configParse s = some cfg ∧
         cfg.a.length = 0 ∧ cfg.aaaa.length = 0))) ∧
    mainExitCode env1 = mainExitCode env2 := by
  refine ⟨mainExitCode_cases env1, mainExitCode_zero_iff env1, ?_, ?_⟩
  · rw [← load_fails_iff]
    constructor
    · intro h1 hex
      have h0 := (mainExitCode_zero_iff env1).mpr hex
      rw [h0] at h1
      exact absurd h1 (by decide)
    · intro hne
      rcases mainExitCode_cases env1 with h0 | h1
      · exact absurd ((mainExitCode_zero_iff env1).mp h0) hne
      · exact h1
  · have z1 := mainExitCode_zero_iff env1
    rw [hc, hr, hp] at z1
    by_cases hex : ∃ configuration,
        loadDNSConfiguration env2.configPath env2.configRead env2.configParse =
          Except.ok configuration
    · rw [z1.mpr hex, (mainExitCode_zero_iff env2).mpr hex]
    · have n1 : mainExitCode env1 ≠ 0 := fun h => hex (z1.mp h)
      have n2 : mainExitCode env2 ≠ 0 := fun h =>
        hex ((mainExitCode_zero_iff env2).mp h)
      rcases mainExitCode_cases env1 with h | h
      · exact absurd h n1
      · rcases mainExitCode_cases env2 with h2 | h2
        · exact absurd h2 n2
        · rw [h, h2]

/-- Witness for C8: two environments sharing the same configuration inputs
but differing in per-record update oracles get the same exit code. -/
theorem mainExitCode_spec_witness : mainExitCode envC7 = mainExitCode envC8 :=
  (mainExitCode_spec envC7 envC8 rfl rfl rfl).2.2.2

end Clouddns
